import Mathlib

/-!
Verification of the `autopo-server` Gemini proxy against its specification.

The repository consists of three JavaScript files:
  * `server/index.js` (namespace `ServerIndex` below) — the long-running
    Express "Process Server" with routes `POST /api/generate` and
    `POST /api/analyzeDocument`;
  * `api/generate.js` (namespace `ApiGenerate`) — the stateless generate
    handler;
  * `api/analyzeDocument.js` (namespace `ApiAnalyzeDocument`) — the stateless
    document-analysis handler.

JavaScript/JSON values are shallowly embedded by the inductive `Json`.
`Option Json` models a possibly-`undefined` JS value (`none` = `undefined`);
`Json.null` is JS `null`.  Numbers are modelled by `ℚ` (the only numeric
literals in the program are small decimal fractions and HTTP status codes,
so exact rationals are faithful).  `JSON.parse` is modelled by an arbitrary
parameter `jsonParse : String → Option Json`, where `none` stands for a
parse exception; every theorem below is universally quantified over it.
-/

/-- Model of a JS whitespace character (the characters relevant to
`String.prototype.trim` that can occur in this program's data). -/
def wsChar (c : Char) : Bool :=
  c == ' ' || c == '\t' || c == '\n' || c == '\r'

/-- Model of JavaScript `String.prototype.trim`, via the character list. -/
def jsTrim (s : String) : String :=
  List.asString (((s.toList.dropWhile wsChar).reverse.dropWhile wsChar).reverse)

/-- List prefix test used to model `String.prototype.startsWith`. -/
def listIsPrefix : List Char → List Char → Bool
  | [], _ => true
  | _ :: _, [] => false
  | a :: as, b :: bs => a == b && listIsPrefix as bs

/-- Model of JavaScript `String.prototype.startsWith`. -/
def jsStartsWith (s pre : String) : Bool :=
  listIsPrefix pre.toList s.toList

/-- Substring containment test (over character lists), used to state that the
instructional prompt names a given field. -/
def listContains : List Char → List Char → Bool
  | needle, [] => listIsPrefix needle []
  | needle, c :: rest => listIsPrefix needle (c :: rest) || listContains needle rest

/-- String-level substring containment. -/
def strContains (hay needle : String) : Bool :=
  listContains needle.toList hay.toList

/-- Shallow embedding of a JSON / JavaScript data value. -/
inductive Json where
  | null
  | bool (b : Bool)
  | num (q : ℚ)
  | str (s : String)
  | arr (elems : List Json)
  | obj (fields : List (String × Json))

/-- JavaScript truthiness of a value (`Boolean(v)`). -/
def truthy : Json → Bool
  | Json.null => false
  | Json.bool b => b
  | Json.num q => q != 0
  | Json.str s => s != ""
  | Json.arr _ => true
  | Json.obj _ => true

/-- Truthiness of a possibly-undefined value (`undefined` is falsy). -/
def truthyO : Option Json → Bool
  | none => false
  | some v => truthy v

/-- First binding of a key in an object field list (JS object key lookup). -/
def lookupField : List (String × Json) → String → Option Json
  | [], _ => none
  | (k, v) :: rest, key => if k == key then some v else lookupField rest key

/-- JavaScript property access `v[key]`: `none` models `undefined`.
Property access on primitives yields `undefined` (none of the properties
accessed by this program exist on JS primitives). -/
def getField : Json → String → Option Json
  | Json.obj fields, key => lookupField fields key
  | _, _ => none

/-- JavaScript index access `v[n]`: array element, object key `toString n`,
or the `n`-th character of a string (as a one-character string). -/
def getIndex : Json → Nat → Option Json
  | Json.arr xs, n => xs.get? n
  | Json.obj fields, n => lookupField fields (toString n)
  | Json.str s, n => (s.toList.get? n).map (fun c => Json.str c.toString)
  | _, _ => none

/-- Optional chaining `v?.step`: short-circuits to `undefined` when the
receiver is `undefined` or `null`. -/
def ochain : Option Json → (Json → Option Json) → Option Json
  | none, _ => none
  | some Json.null, _ => none
  | some v, f => f v

/-- JavaScript nullish coalescing `a ?? b`. -/
def jsCoalesce : Option Json → Option Json → Option Json
  | none, b => b
  | some Json.null, b => b
  | some v, _ => some v

/-- JavaScript logical or `a || b` (left operand wins when truthy). -/
def jsOr : Option Json → Option Json → Option Json
  | none, b => b
  | some v, b => if truthy v then some v else b

/-- Collapse a JS value known not to be `undefined` ( `undefined` would
print as `null` in a JSON envelope anyway). -/
def forceJ : Option Json → Json
  | none => Json.null
  | some v => v

/-- The candidate `data?.text` (first location probed by the unwrappers). -/
def tcand (data : Json) : Option Json :=
  ochain (some data) (fun d => getField d "text")

/-- The candidate `data?.key?.[0]?.content?.[0]?.text` for
`key ∈ {output, candidates}` (second and third probed locations). -/
def pathOCT (data : Json) (key : String) : Option Json :=
  ochain (ochain (ochain (ochain (ochain (some data)
    (fun d => getField d key))
    (fun j => getIndex j 0))
    (fun j => getField j "content"))
    (fun j => getIndex j 0))
    (fun j => getField j "text")

/-- The three text locations probed by every unwrapper, in priority order. -/
def textCandidates (data : Json) : List (Option Json) :=
  [tcand data, pathOCT data "output", pathOCT data "candidates"]

/-- Result record `{raw, text, parsed}` of the Response Unwrapper. -/
structure Extracted where
  raw : Json
  text : Json
  parsed : Json

/-- Serialization of an `Extracted` record into the response envelope. -/
def Extracted.toJson (e : Extracted) : Json :=
  Json.obj [("raw", e.raw), ("text", e.text), ("parsed", e.parsed)]

/-- An HTTP response produced by a route handler: status code plus optional
JSON body (`none` models `res.end()` with no body). -/
structure HttpResponse where
  status : Nat
  body : Option Json

/-- Outcome of the one outbound `fetch` + `r.json()` step: either the
upstream HTTP status with the parsed upstream JSON body, or a thrown
error (network failure or malformed upstream JSON), carried into the
handler's `catch` block with its stringified message. -/
inductive FetchOutcome where
  | success (status : Nat) (body : Json)
  | failure (message : String)

/-- Model of `Array.isArray`. -/
def isArr : Json → Bool
  | Json.arr _ => true
  | _ => false

/-- Test for the JS value `null` (used where the source destructures
`req.body`, which throws on `null`). -/
def jIsNull : Json → Bool
  | Json.null => true
  | _ => false

/-- Falsiness of an environment variable (`!GEMINI_KEY`): unset or empty. -/
def envFalsy : Option String → Bool
  | none => true
  | some s => s == ""

/-- The catch-block response shared by every handler:
`res.status(500).json({error: "Proxy failed", details: String(err)})`. -/
def proxyFailed (details : String) : HttpResponse :=
  ⟨500, some (Json.obj [("error", Json.str "Proxy failed"),
                        ("details", Json.str details)])⟩

/-- Whether a response body is a JSON object containing an `error` field. -/
def hasError (r : HttpResponse) : Bool :=
  match r.body with
  | some j => (getField j "error").isSome
  | none => false

/-- Field lookup inside a response body. -/
def respField (r : HttpResponse) (key : String) : Option Json :=
  match r.body with
  | some j => getField j key
  | none => none

/-- An object field list from a possibly-undefined value: a JS object
literal `{k: v}` with `v === undefined` serializes with the key absent. -/
def optField (key : String) : Option Json → List (String × Json)
  | some v => [(key, v)]
  | none => []

/-- The second normalization map `p => ({text: p.text})` applied to every
normalized text part by both document-analysis surfaces. -/
def mkTextPart (p : Json) : Json :=
  Json.obj (optField "text" (getField p "text"))

/-- Condition `!prompt || typeof prompt !== "string"` of the Process Server
generate route: true unless the prompt is a non-empty string. -/
def promptBad : Option Json → Bool
  | some (Json.str s) => s == ""
  | _ => true

/-- Condition `!prompt` of the stateless generate handler: true exactly
when the prompt is absent or falsy. -/
def promptFalsy (p : Option Json) : Bool :=
  !(truthyO p)

/-- The `parsed` computation applied to the found text by the
`extractGeminiOutput` of `server/index.js` (lines 46–58) and, identically,
of `api/generate.js` (lines 10–16): when the found value is a string whose
trimmed form starts with a brace or bracket, `JSON.parse` the trimmed
form, yielding `null` on a parse exception; otherwise `null`. -/
def parseIfJson (jsonParse : String → Option Json) : Json → Json
  | Json.str s =>
    let trimmed := jsTrim s
    if jsStartsWith trimmed "\x7b" || jsStartsWith trimmed "[" then
      match jsonParse trimmed with
      | some v => v
      | none => Json.null
    else Json.null
  | _ => Json.null

/-- The `parsed` computation of the `api/analyzeDocument.js` inline
extraction (lines 73–80): the guard tests the trimmed form but
`JSON.parse` receives the untrimmed string. -/
def parseIfJsonU (jsonParse : String → Option Json) : Json → Json
  | Json.str s =>
    if jsStartsWith (jsTrim s) "\x7b" || jsStartsWith (jsTrim s) "[" then
      match jsonParse s with
      | some v => v
      | none => Json.null
    else Json.null
  | _ => Json.null

/-- The `textParts` normalization shared (verbatim) by both
document-analysis surfaces, including the `Array.isArray` default and the
string-to-object step, followed by the `p => ({text: p.text})` map. -/
def normalizeTextParts (reqBody : Json) : List Json :=
  let textParts : Json :=
    match getField reqBody "textParts" with
    | none => Json.arr []
    | some v => v
  let normalized : List Json :=
    match textParts with
    | Json.arr ps =>
      ps.map (fun p =>
        match p with
        | Json.str s => Json.obj [("text", Json.str s)]
        | _ => p)
    | _ => []
  normalized.map mkTextPart

/-- The `generationConfig` literal built by both document-analysis surfaces:
`responseMimeType`, then the conditional spread of `responseSchema`
(included only when truthy; the destructuring default is `null`), then
`temperature: 0.05`. -/
def analyzeGenerationConfig (reqBody : Json) : Json :=
  let responseSchema : Json :=
    match getField reqBody "responseSchema" with
    | none => Json.null
    | some v => v
  Json.obj ([("responseMimeType", Json.str "application/json")]
    ++ (if truthy responseSchema then [("responseSchema", responseSchema)] else [])
    ++ [("temperature", Json.num 0.05)])

namespace ServerIndex

/-- The `maybeText` nullish-coalescing chain of `server/index.js`
lines 33–39 (it repeats the `candidates` and `output` paths, as the
source does, and ends in `?? null`). -/
def chainText (data : Json) : Json :=
  forceJ (jsCoalesce (jsCoalesce (jsCoalesce (jsCoalesce (jsCoalesce
    (tcand data)
    (pathOCT data "output"))
    (pathOCT data "candidates"))
    (pathOCT data "candidates"))
    (pathOCT data "output"))
    (some Json.null))

/-- Embeds `extractGeminiOutput` of `server/index.js` (lines 29–61).
The source's early `if (!data) return {raw: data, text: null, parsed: null}`
is rendered as the outer `if truthy data` with the branches swapped; the
`if (!maybeText)` early return is the inner test; the `parsed` computation
of lines 46–58 is `parseIfJson` (guard on the trimmed text, parse the
trimmed text, `null` on a parse exception).  `jsonParse` models
`JSON.parse` (`none` = thrown `SyntaxError`). -/
def extractGeminiOutput (jsonParse : String → Option Json) (data : Json) : Extracted :=
  if truthy data then
    if truthy (chainText data) then
      ⟨data, chainText data, parseIfJson jsonParse (chainText data)⟩
    else ⟨data, Json.null, Json.null⟩
  else ⟨data, Json.null, Json.null⟩

/-- Result of the Process Server's startup sequence (`server/index.js`
lines 10–16 and 196–198): either `process.exit(1)` before any route is
served, or the server listening on its port. -/
inductive StartupResult where
  | exitFatal
  | listening

/-- Embeds the startup credential check: `if (!GEMINI_KEY) { ...;
process.exit(1); }` runs before `app.listen`, so a falsy key exits
without ever binding the port. -/
def startup (geminiKey : Option String) : StartupResult :=
  if envFalsy geminiKey then StartupResult.exitFatal else StartupResult.listening

/-- The instructional prompt literal of `server/index.js` lines 140–147. -/
def promptText : String :=
  "Analyze this Purchase Order. Extract ONLY these fields (return JSON matching the schema if possible):\n- customerInternalId\n- customerRequestDate\n- poNumber\n- shipToSelect\n- lineItems (array of \x7b item, quantity \x7d)\n\nReturn a pure JSON object only."

/-- Embeds the `parts` construction of `server/index.js` lines 150–159:
normalized text parts, then the prompt part, then the inline-data part. -/
def analyzeParts (reqBody : Json) : List Json :=
  normalizeTextParts reqBody
    ++ [Json.obj [("text", Json.str promptText)],
        Json.obj [("inlineData", Json.obj
          (optField "mimeType" (getField reqBody "mimeType")
            ++ optField "data" (getField reqBody "fileBase64")))]]

/-- Embeds the upstream request body of `server/index.js` lines 161–172. -/
def analyzeUpstreamBody (reqBody : Json) : Json :=
  Json.obj [("contents", Json.arr [Json.obj [("parts", Json.arr (analyzeParts reqBody))]]),
            ("generationConfig", analyzeGenerationConfig reqBody)]

/-- Embeds the `POST /api/generate` route of `server/index.js`
(lines 68–105), from the point where the request body is available to the
response.  The outbound `fetch`/`r.json()` outcome is supplied as a
parameter; a thrown error anywhere in the `try` block (including
destructuring a `null` body) lands in the `catch`, which answers 500. -/
def generateRoute (jsonParse : String → Option Json) (reqBody : Json)
    (fetch : FetchOutcome) : HttpResponse :=
  if jIsNull reqBody then proxyFailed "TypeError: cannot destructure null"
  else if promptBad (getField reqBody "prompt") then
    ⟨400, some (Json.obj [("error", Json.str "Missing 'prompt' string in request body.")])⟩
  else
    match fetch with
    | FetchOutcome.failure msg => proxyFailed msg
    | FetchOutcome.success st data =>
      let extracted := extractGeminiOutput jsonParse data
      ⟨st, some (Json.obj [("status", Json.num st),
                           ("extracted", extracted.toJson),
                           ("raw", data)])⟩

/-- Embeds the `POST /api/analyzeDocument` route of `server/index.js`
(lines 120–194), from request body to response. -/
def analyzeRoute (jsonParse : String → Option Json) (reqBody : Json)
    (fetch : FetchOutcome) : HttpResponse :=
  if jIsNull reqBody then proxyFailed "TypeError: cannot destructure null"
  else if !(truthyO (getField reqBody "fileBase64"))
       || !(truthyO (getField reqBody "mimeType")) then
    ⟨400, some (Json.obj [("error", Json.str "Missing fileBase64 or mimeType in request body.")])⟩
  else
    match fetch with
    | FetchOutcome.failure msg => proxyFailed msg
    | FetchOutcome.success st data =>
      let extracted := extractGeminiOutput jsonParse data
      ⟨st, some (Json.obj [("status", Json.num st),
                           ("extracted", extracted.toJson),
                           ("raw", data)])⟩

end ServerIndex

namespace ApiGenerate

/-- The `maybeText` nullish-coalescing chain of `api/generate.js`
lines 4–8 (three candidates, ending in `?? null`). -/
def chainText (data : Json) : Json :=
  forceJ (jsCoalesce (jsCoalesce (jsCoalesce
    (tcand data)
    (pathOCT data "output"))
    (pathOCT data "candidates"))
    (some Json.null))

/-- Embeds `extractGeminiOutput` of `api/generate.js` (lines 3–19):
a plain three-candidate `??` chain with no falsiness gates, then the
`parsed` computation of lines 10–16 (`parseIfJson`: guard on the trimmed
text, parse the trimmed text, `null` on a parse exception). -/
def extractGeminiOutput (jsonParse : String → Option Json) (data : Json) : Extracted :=
  ⟨data, chainText data, parseIfJson jsonParse (chainText data)⟩

/-- Embeds the stateless handler of `api/generate.js` (lines 21–62):
CORS headers are set unconditionally (not modelled — they carry no data),
`OPTIONS` short-circuits with a bare 200, non-`POST` methods get 405, a
falsy `GEMINI_API_KEY` gets 500, then the body is destructured (throwing
into the `catch` on `null`), the prompt is validated with `!prompt` only
(no `typeof` check), and finally the upstream outcome is mirrored. -/
def handler (jsonParse : String → Option Json) (geminiKey : Option String)
    (method : String) (reqBody : Json) (fetch : FetchOutcome) : HttpResponse :=
  if method == "OPTIONS" then ⟨200, none⟩
  else if method != "POST" then
    ⟨405, some (Json.obj [("error", Json.str "Method not allowed")])⟩
  else if envFalsy geminiKey then
    ⟨500, some (Json.obj [("error", Json.str "Missing GEMINI_API_KEY")])⟩
  else if jIsNull reqBody then proxyFailed "TypeError: cannot destructure null"
  else if promptFalsy (getField reqBody "prompt") then
    ⟨400, some (Json.obj [("error", Json.str "Missing 'prompt' field")])⟩
  else
    match fetch with
    | FetchOutcome.failure msg => proxyFailed msg
    | FetchOutcome.success st data =>
      let extracted := extractGeminiOutput jsonParse data
      ⟨st, some (Json.obj [("status", Json.num st),
                           ("extracted", extracted.toJson),
                           ("raw", data)])⟩

end ApiGenerate

namespace ApiAnalyzeDocument

/-- The `maybeText` logical-or chain of `api/analyzeDocument.js`
lines 67–71 (three candidates combined with `||`, so falsy candidates are
skipped, ending in `|| null`). -/
def chainText (data : Json) : Json :=
  forceJ (jsOr (jsOr (jsOr
    (tcand data)
    (pathOCT data "output"))
    (pathOCT data "candidates"))
    (some Json.null))

/-- Embeds the inline extraction of `api/analyzeDocument.js`
(lines 67–80): the `||` chain, then the `parsed` computation guarded by
`if (maybeText && typeof maybeText === "string")` — rendered as the
truthiness test around `parseIfJsonU`, which itself handles the
string-type test and applies `JSON.parse` to the untrimmed text. -/
def inlineExtract (jsonParse : String → Option Json) (data : Json) : Extracted :=
  ⟨data, chainText data,
    if truthy (chainText data) then parseIfJsonU jsonParse (chainText data) else Json.null⟩

/-- The instructional prompt literal of `api/analyzeDocument.js`
lines 33–39 (it differs from the Process Server's prompt text). -/
def promptText : String :=
  "Analyze this Purchase Order. Extract ONLY these fields:\n- customerInternalId\n- customerRequestDate\n- poNumber\n- shipToSelect\n- lineItems (array of \x7b item, quantity \x7d)\nReturn a pure JSON object only."

/-- Embeds the `parts` construction of `api/analyzeDocument.js`
lines 41–45 (same shape as the Process Server's, with this file's
prompt text). -/
def analyzeParts (reqBody : Json) : List Json :=
  normalizeTextParts reqBody
    ++ [Json.obj [("text", Json.str promptText)],
        Json.obj [("inlineData", Json.obj
          (optField "mimeType" (getField reqBody "mimeType")
            ++ optField "data" (getField reqBody "fileBase64")))]]

/-- Embeds the upstream request body of `api/analyzeDocument.js`
lines 47–54. -/
def analyzeUpstreamBody (reqBody : Json) : Json :=
  Json.obj [("contents", Json.arr [Json.obj [("parts", Json.arr (analyzeParts reqBody))]]),
            ("generationConfig", analyzeGenerationConfig reqBody)]

/-- Embeds the stateless handler of `api/analyzeDocument.js` (lines 6–87):
`OPTIONS` short-circuits with 200, non-`POST` gets 405, a falsy key gets
500, the body is destructured and validated, and the upstream outcome is
mirrored with the inline extraction in the envelope. -/
def handler (jsonParse : String → Option Json) (geminiKey : Option String)
    (method : String) (reqBody : Json) (fetch : FetchOutcome) : HttpResponse :=
  if method == "OPTIONS" then ⟨200, none⟩
  else if method != "POST" then
    ⟨405, some (Json.obj [("error", Json.str "Method not allowed")])⟩
  else if envFalsy geminiKey then
    ⟨500, some (Json.obj [("error", Json.str "GEMINI_API_KEY not set")])⟩
  else if jIsNull reqBody then proxyFailed "TypeError: cannot destructure null"
  else if !(truthyO (getField reqBody "fileBase64"))
       || !(truthyO (getField reqBody "mimeType")) then
    ⟨400, some (Json.obj [("error", Json.str "Missing fileBase64 or mimeType in request body.")])⟩
  else
    match fetch with
    | FetchOutcome.failure msg => proxyFailed msg
    | FetchOutcome.success st data =>
      let extracted := inlineExtract jsonParse data
      ⟨st, some (Json.obj [("status", Json.num st),
                           ("extracted", extracted.toJson),
                           ("raw", data)])⟩

end ApiAnalyzeDocument

/-! Spec-side definitions.  The following definitions are written from the
specification's words (not from the source); the theorems below compare
the source-derived definitions against them. -/

/-- Written from the spec: a candidate is present when it is neither
`undefined` nor `null`. -/
def isPresent : Option Json → Bool
  | none => false
  | some Json.null => false
  | some _ => true

/-- Written from the spec: "The first present (non-null/non-undefined)
candidate wins; if none are present, `text` is null."  Falsy present
values (such as the empty string) win. -/
def specFirstPresent : List (Option Json) → Json
  | [] => Json.null
  | none :: rest => specFirstPresent rest
  | some Json.null :: rest => specFirstPresent rest
  | some v :: _ => v

/-- Written from the amended claim: the first truthy candidate wins
(falsy candidates, present or not, are skipped); null when none is truthy. -/
def specFirstTruthy : List (Option Json) → Json
  | [] => Json.null
  | none :: rest => specFirstTruthy rest
  | some v :: rest => if truthy v then v else specFirstTruthy rest

/-- Written from the spec: "each element that is a plain string becomes
`{text: element}`; each element already shaped as `{text: ...}` passes
through unchanged." -/
def specNormalizePart : Json → Json
  | Json.str s => Json.obj [("text", Json.str s)]
  | p => p

/-- Written from the spec: an element of `textParts` is a plain string or
an object shaped exactly as `{text: ...}` (the `AnalyzeRequest` data-model
type `sequence of (string | {text: string})`, with the inner value left
arbitrary). -/
def textPartShaped : Json → Bool
  | Json.str _ => true
  | Json.obj [(k, _)] => k == "text"
  | _ => false

/-- Written from the spec: the instructional prompt names the five fields
`customerInternalId`, `customerRequestDate`, `poNumber`, `shipToSelect`,
`lineItems`. -/
def promptNamesFields (s : String) : Bool :=
  strContains s "customerInternalId" && strContains s "customerRequestDate"
    && strContains s "poNumber" && strContains s "shipToSelect"
    && strContains s "lineItems"

/-- Upstream response example from the spec's testable properties:
`{candidates: [{content: [{text: "hello"}]}]}`. -/
def helloData : Json :=
  Json.obj [("candidates", Json.arr [Json.obj [("content",
    Json.arr [Json.obj [("text", Json.str "hello")]])]])]

/-! Helper lemmas. -/

theorem jsCoalesce_assoc (a b c : Option Json) :
    jsCoalesce (jsCoalesce a b) c = jsCoalesce a (jsCoalesce b c) := by
  rcases a with _ | v
  · rfl
  · cases v <;> rfl

theorem coalesce_chain (l : List (Option Json)) :
    l.foldr jsCoalesce (some Json.null) = some (specFirstPresent l) := by
  induction l with
  | nil => rfl
  | cons a rest ih =>
    rcases a with _ | v
    · simpa [jsCoalesce, specFirstPresent] using ih
    · cases v <;> simp [jsCoalesce, specFirstPresent, ih]

theorem jsOr_assoc (a b c : Option Json) :
    jsOr (jsOr a b) c = jsOr a (jsOr b c) := by
  rcases a with _ | v
  · rfl
  · by_cases h : truthy v = true <;> simp [jsOr, h]

theorem or_chain (l : List (Option Json)) :
    l.foldr jsOr (some Json.null) = some (specFirstTruthy l) := by
  induction l with
  | nil => rfl
  | cons a rest ih =>
    rcases a with _ | v
    · simpa [jsOr, specFirstTruthy] using ih
    · by_cases h : truthy v = true <;> simp [jsOr, specFirstTruthy, h, ih]

theorem specFirstPresent_cons (a : Option Json) (l : List (Option Json)) :
    specFirstPresent (a :: l) = if isPresent a then forceJ a else specFirstPresent l := by
  rcases a with _ | v
  · rfl
  · cases v <;> rfl

theorem specFirstPresent_dup (t o c : Option Json) :
    specFirstPresent [t, o, c, c, o] = specFirstPresent [t, o, c] := by
  simp only [specFirstPresent_cons]
  cases ht : isPresent t <;> cases ho : isPresent o <;> cases hc : isPresent c <;>
    simp [specFirstPresent]

theorem textCandidates_falsy (data : Json) (h : truthy data = false) :
    textCandidates data = [none, none, none] := by
  cases data <;> simp_all [truthy, textCandidates, tcand, pathOCT, ochain, getField]

theorem apiGenerate_chainText (data : Json) :
    ApiGenerate.chainText data = specFirstPresent (textCandidates data) := by
  unfold ApiGenerate.chainText
  have h := coalesce_chain [tcand data, pathOCT data "output", pathOCT data "candidates"]
  simp only [List.foldr] at h
  simp only [jsCoalesce_assoc, h, forceJ]
  rfl

theorem serverIndex_chainText (data : Json) :
    ServerIndex.chainText data = specFirstPresent (textCandidates data) := by
  unfold ServerIndex.chainText
  have h5 := coalesce_chain [tcand data, pathOCT data "output", pathOCT data "candidates",
    pathOCT data "candidates", pathOCT data "output"]
  simp only [List.foldr] at h5
  simp only [jsCoalesce_assoc, h5, forceJ]
  exact specFirstPresent_dup _ _ _

theorem analyze_chainText (data : Json) :
    ApiAnalyzeDocument.chainText data = specFirstTruthy (textCandidates data) := by
  unfold ApiAnalyzeDocument.chainText
  have h := or_chain [tcand data, pathOCT data "output", pathOCT data "candidates"]
  simp only [List.foldr] at h
  simp only [jsOr_assoc, h, forceJ]
  rfl

theorem apiGenerate_text (P : String → Option Json) (data : Json) :
    (ApiGenerate.extractGeminiOutput P data).text = specFirstPresent (textCandidates data) :=
  apiGenerate_chainText data

theorem serverIndex_text (P : String → Option Json) (data : Json) :
    (ServerIndex.extractGeminiOutput P data).text =
      (if truthy (specFirstPresent (textCandidates data)) then
        specFirstPresent (textCandidates data) else Json.null) := by
  unfold ServerIndex.extractGeminiOutput
  by_cases hd : truthy data = true
  · rw [if_pos hd, serverIndex_chainText]
    by_cases hm : truthy (specFirstPresent (textCandidates data)) = true <;> simp [hm]
  · rw [if_neg hd]
    have hf : truthy data = false := by
      cases hdd : truthy data
      · rfl
      · exact absurd hdd hd
    rw [textCandidates_falsy data hf]
    rfl

theorem analyze_text (P : String → Option Json) (data : Json) :
    (ApiAnalyzeDocument.inlineExtract P data).text = specFirstTruthy (textCandidates data) :=
  analyze_chainText data

theorem apiGenerate_parsed (P : String → Option Json) (data : Json) :
    (ApiGenerate.extractGeminiOutput P data).parsed =
      parseIfJson P ((ApiGenerate.extractGeminiOutput P data).text) := rfl

theorem server_parsed (P : String → Option Json) (data : Json) :
    (ServerIndex.extractGeminiOutput P data).parsed =
      parseIfJson P ((ServerIndex.extractGeminiOutput P data).text) := by
  unfold ServerIndex.extractGeminiOutput
  by_cases hd : truthy data = true
  · rw [if_pos hd]
    by_cases hm : truthy (ServerIndex.chainText data) = true
    · rw [if_pos hm]
    · rw [if_neg hm]; rfl
  · rw [if_neg hd]; rfl

theorem analyze_parsed (P : String → Option Json) (data : Json) :
    (ApiAnalyzeDocument.inlineExtract P data).parsed =
      (if truthy ((ApiAnalyzeDocument.inlineExtract P data).text) then
        parseIfJsonU P ((ApiAnalyzeDocument.inlineExtract P data).text) else Json.null) := rfl

theorem ft_truthy_or_null (l : List (Option Json)) :
    truthy (specFirstTruthy l) = true ∨ specFirstTruthy l = Json.null := by
  induction l with
  | nil => right; rfl
  | cons a rest ih =>
    rcases a with _ | v
    · simpa [specFirstTruthy] using ih
    · by_cases h : truthy v = true
      · left; simp [specFirstTruthy, h]
      · simp [specFirstTruthy, h]
        exact ih

theorem server_raw (P : String → Option Json) (data : Json) :
    (ServerIndex.extractGeminiOutput P data).raw = data := by
  unfold ServerIndex.extractGeminiOutput
  split
  · split <;> rfl
  · rfl

theorem gen_raw (P : String → Option Json) (data : Json) :
    (ApiGenerate.extractGeminiOutput P data).raw = data := rfl

theorem analyze_raw (P : String → Option Json) (data : Json) :
    (ApiAnalyzeDocument.inlineExtract P data).raw = data := rfl

theorem promptBad_not_falsy (p : Option Json) (h : promptBad p = false) :
    promptFalsy p = false := by
  rcases p with _ | v
  · simp [promptBad] at h
  · cases v <;> simp_all [promptBad, promptFalsy, truthyO, truthy]

theorem genRoute_success (P : String → Option Json) (reqBody : Json) (st : Nat) (data : Json)
    (h0 : jIsNull reqBody = false) (h1 : promptBad (getField reqBody "prompt") = false) :
    ServerIndex.generateRoute P reqBody (FetchOutcome.success st data)
      = ⟨st, some (Json.obj [("status", Json.num st),
          ("extracted", (ServerIndex.extractGeminiOutput P data).toJson),
          ("raw", data)])⟩ := by
  simp [ServerIndex.generateRoute, h0, h1]

theorem genHandler_success (P : String → Option Json) (key : Option String) (reqBody : Json)
    (st : Nat) (data : Json) (hk : envFalsy key = false)
    (h0 : jIsNull reqBody = false) (h1 : promptFalsy (getField reqBody "prompt") = false) :
    ApiGenerate.handler P key "POST" reqBody (FetchOutcome.success st data)
      = ⟨st, some (Json.obj [("status", Json.num st),
          ("extracted", (ApiGenerate.extractGeminiOutput P data).toJson),
          ("raw", data)])⟩ := by
  simp [ApiGenerate.handler, hk, h0, h1]

theorem anaRoute_success (P : String → Option Json) (reqBody : Json) (st : Nat) (data : Json)
    (h0 : jIsNull reqBody = false)
    (h1 : truthyO (getField reqBody "fileBase64") = true)
    (h2 : truthyO (getField reqBody "mimeType") = true) :
    ServerIndex.analyzeRoute P reqBody (FetchOutcome.success st data)
      = ⟨st, some (Json.obj [("status", Json.num st),
          ("extracted", (ServerIndex.extractGeminiOutput P data).toJson),
          ("raw", data)])⟩ := by
  simp [ServerIndex.analyzeRoute, h0, h1, h2]

theorem anaHandler_success (P : String → Option Json) (key : Option String) (reqBody : Json)
    (st : Nat) (data : Json) (hk : envFalsy key = false)
    (h0 : jIsNull reqBody = false)
    (h1 : truthyO (getField reqBody "fileBase64") = true)
    (h2 : truthyO (getField reqBody "mimeType") = true) :
    ApiAnalyzeDocument.handler P key "POST" reqBody (FetchOutcome.success st data)
      = ⟨st, some (Json.obj [("status", Json.num st),
          ("extracted", (ApiAnalyzeDocument.inlineExtract P data).toJson),
          ("raw", data)])⟩ := by
  simp [ApiAnalyzeDocument.handler, hk, h0, h1, h2]

theorem normalize_nonarray (reqBody tp : Json)
    (htp : getField reqBody "textParts" = some tp) (harr : isArr tp = false) :
    normalizeTextParts reqBody = [] := by
  unfold normalizeTextParts
  rw [htp]
  cases tp <;> simp_all [isArr]

theorem normalize_shaped (reqBody : Json) (ps : List Json)
    (hps : getField reqBody "textParts" = some (Json.arr ps))
    (hshape : ∀ p ∈ ps, textPartShaped p = true) :
    normalizeTextParts reqBody = ps.map specNormalizePart := by
  unfold normalizeTextParts
  rw [hps]
  rw [List.map_map]
  apply List.map_congr_left
  intro p hp
  have h := hshape p hp
  rcases p with _ | b | q | s | xs | fields
  · simp [textPartShaped] at h
  · simp [textPartShaped] at h
  · simp [textPartShaped] at h
  · rfl
  · simp [textPartShaped] at h
  · rcases fields with _ | ⟨⟨k, v⟩, rest⟩
    · simp [textPartShaped] at h
    · rcases rest with _ | ⟨q2, rest2⟩
      · have hk : k = "text" := by
          simp [textPartShaped] at h
          exact h
        subst hk
        rfl
      · simp [textPartShaped] at h

/-- C1 (amended): for every upstream JSON value, the candidate text is
selected by probing, in priority order, `text`, `output[0].content[0].text`,
`candidates[0].content[0].text`.  In the stateless generate handler's
unwrapper the first present (non-null/non-undefined) candidate wins —
including falsy values such as the empty string — and `text` is null when
none is present.  In the Process Server's unwrapper the same selection
applies, but a falsy selected candidate yields `text = null`; in the
document-analysis handler's inline extraction the first truthy candidate
wins (falsy candidates are skipped). -/
theorem claim1_text_selection (jsonParse : String → Option Json) (data : Json) :
    (ApiGenerate.extractGeminiOutput jsonParse data).text = specFirstPresent (textCandidates data)
    ∧ (ServerIndex.extractGeminiOutput jsonParse data).text =
        (if truthy (specFirstPresent (textCandidates data)) then
          specFirstPresent (textCandidates data) else Json.null)
    ∧ (ApiAnalyzeDocument.inlineExtract jsonParse data).text = specFirstTruthy (textCandidates data) :=
  ⟨apiGenerate_text jsonParse data, serverIndex_text jsonParse data, analyze_text jsonParse data⟩

/-- C1 counterexample: on `{text: ""}` the top-level `text` candidate is
present (an empty string), so by the claim the extracted text should be
`""`; the Process Server's unwrapper instead returns `text = null`,
because `if (!maybeText)` discards falsy winners. -/
theorem claim1_falsy_counterexample :
    tcand (Json.obj [("text", Json.str "")]) = some (Json.str "")
    ∧ isPresent (some (Json.str "")) = true
    ∧ (ServerIndex.extractGeminiOutput (fun _ => none) (Json.obj [("text", Json.str "")])).text
        = Json.null
    ∧ Json.null ≠ Json.str "" :=
  ⟨rfl, rfl, rfl, fun h => nomatch h⟩

/-- C2: every Response Unwrapper returns a `{raw, text, parsed}` record
with `raw` equal to the input for every input value (the functions are
total, so no exception can propagate), and when the located text is a
string whose trimmed form starts with a brace or bracket but `JSON.parse`
fails on it, `parsed` is null. -/
theorem claim2_unwrapper_total (jsonParse : String → Option Json) (data : Json) :
    ((ServerIndex.extractGeminiOutput jsonParse data).raw = data
      ∧ (ApiGenerate.extractGeminiOutput jsonParse data).raw = data
      ∧ (ApiAnalyzeDocument.inlineExtract jsonParse data).raw = data)
    ∧ (∀ s, (ServerIndex.extractGeminiOutput jsonParse data).text = Json.str s →
        (jsStartsWith (jsTrim s) "\x7b" || jsStartsWith (jsTrim s) "[") = true →
        jsonParse (jsTrim s) = none →
        (ServerIndex.extractGeminiOutput jsonParse data).parsed = Json.null)
    ∧ (∀ s, (ApiGenerate.extractGeminiOutput jsonParse data).text = Json.str s →
        (jsStartsWith (jsTrim s) "\x7b" || jsStartsWith (jsTrim s) "[") = true →
        jsonParse (jsTrim s) = none →
        (ApiGenerate.extractGeminiOutput jsonParse data).parsed = Json.null)
    ∧ (∀ s, (ApiAnalyzeDocument.inlineExtract jsonParse data).text = Json.str s →
        (jsStartsWith (jsTrim s) "\x7b" || jsStartsWith (jsTrim s) "[") = true →
        jsonParse s = none →
        (ApiAnalyzeDocument.inlineExtract jsonParse data).parsed = Json.null) := by
  refine ⟨⟨server_raw jsonParse data, gen_raw jsonParse data, analyze_raw jsonParse data⟩,
    fun s hs hb hp => ?_, fun s hs hb hp => ?_, fun s hs hb hp => ?_⟩
  · rw [server_parsed, hs]
    simp [parseIfJson, hb, hp]
  · rw [apiGenerate_parsed, hs]
    simp [parseIfJson, hb, hp]
  · rw [analyze_parsed, hs]
    have h2 : specFirstTruthy (textCandidates data) = Json.str s := by
      rw [← analyze_text jsonParse data]; exact hs
    have ht : truthy (Json.str s) = true := by
      rcases ft_truthy_or_null (textCandidates data) with h | h
      · rw [h2] at h; exact h
      · rw [h] at h2; exact nomatch h2
    simp [ht, parseIfJsonU, hb, hp]

/-- C2 witness: on `{text: "\x7bnot json"}` with a failing parser the
Process Server's unwrapper leaves `parsed` null. -/
theorem claim2_witness :
    (ServerIndex.extractGeminiOutput (fun _ => none)
      (Json.obj [("text", Json.str "\x7bnot json")])).parsed = Json.null :=
  (claim2_unwrapper_total (fun _ => none) (Json.obj [("text", Json.str "\x7bnot json")])).2.1
    "\x7bnot json" rfl rfl rfl

/-- C6: whenever an unwrapper finds a string text, JSON parsing is
attempted iff the trimmed string starts with a brace or bracket: when it
does not, `parsed` is null for any parser; when it does and the parse
succeeds, `parsed` is the parsed value (the inline extraction of the
analysis handler parses the untrimmed string).  On the spec's example
`{candidates: [{content: [{text: "hello"}]}]}` all three unwrappers yield
`text = "hello"` and `parsed = null`. -/
theorem claim6_parse_gating (jsonParse : String → Option Json) (data : Json) :
    (∀ s, (ServerIndex.extractGeminiOutput jsonParse data).text = Json.str s →
        (jsStartsWith (jsTrim s) "\x7b" || jsStartsWith (jsTrim s) "[") = false →
        (ServerIndex.extractGeminiOutput jsonParse data).parsed = Json.null)
    ∧ (∀ s v, (ServerIndex.extractGeminiOutput jsonParse data).text = Json.str s →
        (jsStartsWith (jsTrim s) "\x7b" || jsStartsWith (jsTrim s) "[") = true →
        jsonParse (jsTrim s) = some v →
        (ServerIndex.extractGeminiOutput jsonParse data).parsed = v)
    ∧ (∀ s, (ApiGenerate.extractGeminiOutput jsonParse data).text = Json.str s →
        (jsStartsWith (jsTrim s) "\x7b" || jsStartsWith (jsTrim s) "[") = false →
        (ApiGenerate.extractGeminiOutput jsonParse data).parsed = Json.null)
    ∧ (∀ s v, (ApiGenerate.extractGeminiOutput jsonParse data).text = Json.str s →
        (jsStartsWith (jsTrim s) "\x7b" || jsStartsWith (jsTrim s) "[") = true →
        jsonParse (jsTrim s) = some v →
        (ApiGenerate.extractGeminiOutput jsonParse data).parsed = v)
    ∧ (∀ s, (ApiAnalyzeDocument.inlineExtract jsonParse data).text = Json.str s →
        (jsStartsWith (jsTrim s) "\x7b" || jsStartsWith (jsTrim s) "[") = false →
        (ApiAnalyzeDocument.inlineExtract jsonParse data).parsed = Json.null)
    ∧ (∀ s v, (ApiAnalyzeDocument.inlineExtract jsonParse data).text = Json.str s →
        (jsStartsWith (jsTrim s) "\x7b" || jsStartsWith (jsTrim s) "[") = true →
        jsonParse s = some v →
        (ApiAnalyzeDocument.inlineExtract jsonParse data).parsed = v)
    ∧ (ApiGenerate.extractGeminiOutput jsonParse helloData).text = Json.str "hello"
    ∧ (ApiGenerate.extractGeminiOutput jsonParse helloData).parsed = Json.null
    ∧ (ServerIndex.extractGeminiOutput jsonParse helloData).text = Json.str "hello"
    ∧ (ServerIndex.extractGeminiOutput jsonParse helloData).parsed = Json.null
    ∧ (ApiAnalyzeDocument.inlineExtract jsonParse helloData).text = Json.str "hello"
    ∧ (ApiAnalyzeDocument.inlineExtract jsonParse helloData).parsed = Json.null := by
  have hAT : ∀ s, (ApiAnalyzeDocument.inlineExtract jsonParse data).text = Json.str s →
      truthy (Json.str s) = true := by
    intro s hs
    have h2 : specFirstTruthy (textCandidates data) = Json.str s := by
      rw [← analyze_text jsonParse data]; exact hs
    rcases ft_truthy_or_null (textCandidates data) with h | h
    · rw [h2] at h; exact h
    · rw [h] at h2; exact nomatch h2
  refine ⟨fun s hs hb => ?_, fun s v hs hb hp => ?_, fun s hs hb => ?_,
    fun s v hs hb hp => ?_, fun s hs hb => ?_, fun s v hs hb hp => ?_,
    rfl, rfl, rfl, rfl, rfl, rfl⟩
  · rw [server_parsed, hs]; simp [parseIfJson, hb]
  · rw [server_parsed, hs]; simp [parseIfJson, hb, hp]
  · rw [apiGenerate_parsed, hs]; simp [parseIfJson, hb]
  · rw [apiGenerate_parsed, hs]; simp [parseIfJson, hb, hp]
  · rw [analyze_parsed, hs]; simp [hAT s hs, parseIfJsonU, hb]
  · rw [analyze_parsed, hs]; simp [hAT s hs, parseIfJsonU, hb, hp]

/-- C6 witness: on `{text: "[1]"}` with a parser returning `[1]`, the
stateless generate unwrapper puts the parsed array in `parsed`. -/
theorem claim6_witness :
    (ApiGenerate.extractGeminiOutput (fun _ => some (Json.arr [Json.num 1]))
      (Json.obj [("text", Json.str "[1]")])).parsed = Json.arr [Json.num 1] :=
  (claim6_parse_gating (fun _ => some (Json.arr [Json.num 1]))
    (Json.obj [("text", Json.str "[1]")])).2.2.2.1 "[1]" (Json.arr [Json.num 1]) rfl rfl rfl

/-- C3 counterexample: a truthy non-string prompt (the number 42) is not
rejected by the stateless generate handler — its `if (!prompt)` check
passes — so with an upstream 200 outcome the response status is 200, not
the 400 the claim requires. -/
theorem claim3_nonstring_counterexample :
    (ApiGenerate.handler (fun _ => none) (some "k") "POST"
      (Json.obj [("prompt", Json.num 42)]) (FetchOutcome.success 200 Json.null)).status = 200
    ∧ (ApiGenerate.handler (fun _ => none) (some "k") "POST"
      (Json.obj [("prompt", Json.num 42)]) (FetchOutcome.success 200 Json.null)).status ≠ 400 := by
  constructor
  · rfl
  · decide

/-- C3 (amended): the Process Server's generate route answers 400 with an
error field whenever the prompt is missing, not a string, or an empty
string; the stateless generate handler answers 400 with an error field
only when the prompt is falsy (absent, null, false, 0 or the empty
string) — a truthy non-string prompt is forwarded upstream instead. -/
theorem claim3_prompt_validation (jsonParse : String → Option Json) (reqBody : Json)
    (fetch : FetchOutcome) (key : Option String) :
    (jIsNull reqBody = false →
      promptBad (getField reqBody "prompt") = true →
      (ServerIndex.generateRoute jsonParse reqBody fetch).status = 400
        ∧ hasError (ServerIndex.generateRoute jsonParse reqBody fetch) = true)
    ∧ (envFalsy key = false →
      jIsNull reqBody = false →
      promptFalsy (getField reqBody "prompt") = true →
      (ApiGenerate.handler jsonParse key "POST" reqBody fetch).status = 400
        ∧ hasError (ApiGenerate.handler jsonParse key "POST" reqBody fetch) = true) := by
  constructor
  · intro h0 h1
    simp only [ServerIndex.generateRoute, h0, h1]
    simp [hasError, getField, lookupField]
  · intro hk h0 h1
    simp only [ApiGenerate.handler, hk, h0, h1]
    simp [hasError, getField, lookupField]

/-- C3 witness: a request body with no `prompt` field gets a 400 from
both generate surfaces. -/
theorem claim3_witness :
    (ServerIndex.generateRoute (fun _ => none) (Json.obj []) (FetchOutcome.failure "e")).status = 400
    ∧ (ApiGenerate.handler (fun _ => none) (some "k") "POST" (Json.obj [])
        (FetchOutcome.failure "e")).status = 400 :=
  ⟨((claim3_prompt_validation (fun _ => none) (Json.obj []) (FetchOutcome.failure "e")
      (some "k")).1 rfl rfl).1,
   ((claim3_prompt_validation (fun _ => none) (Json.obj []) (FetchOutcome.failure "e")
      (some "k")).2 rfl rfl rfl).1⟩

/-- C5: whenever the upstream call completes with status `st` and JSON
body `data`, every validated request on all four proxy surfaces is
answered with the proxy's own status equal to `st` (no special-casing of
any status, 503 included) and the exact envelope
`{status: st, extracted, raw: data}` with `raw` the upstream body
verbatim. -/
theorem claim5_status_mirror (jsonParse : String → Option Json) (genBody anaBody : Json)
    (st : Nat) (data : Json) (key : Option String)
    (hg0 : jIsNull genBody = false)
    (hg1 : promptBad (getField genBody "prompt") = false)
    (ha0 : jIsNull anaBody = false)
    (ha1 : truthyO (getField anaBody "fileBase64") = true)
    (ha2 : truthyO (getField anaBody "mimeType") = true)
    (hk : envFalsy key = false) :
    ServerIndex.generateRoute jsonParse genBody (FetchOutcome.success st data)
      = ⟨st, some (Json.obj [("status", Json.num st),
          ("extracted", (ServerIndex.extractGeminiOutput jsonParse data).toJson),
          ("raw", data)])⟩
    ∧ ApiGenerate.handler jsonParse key "POST" genBody (FetchOutcome.success st data)
      = ⟨st, some (Json.obj [("status", Json.num st),
          ("extracted", (ApiGenerate.extractGeminiOutput jsonParse data).toJson),
          ("raw", data)])⟩
    ∧ ServerIndex.analyzeRoute jsonParse anaBody (FetchOutcome.success st data)
      = ⟨st, some (Json.obj [("status", Json.num st),
          ("extracted", (ServerIndex.extractGeminiOutput jsonParse data).toJson),
          ("raw", data)])⟩
    ∧ ApiAnalyzeDocument.handler jsonParse key "POST" anaBody (FetchOutcome.success st data)
      = ⟨st, some (Json.obj [("status", Json.num st),
          ("extracted", (ApiAnalyzeDocument.inlineExtract jsonParse data).toJson),
          ("raw", data)])⟩ :=
  ⟨genRoute_success jsonParse genBody st data hg0 hg1,
   genHandler_success jsonParse key genBody st data hk hg0 (promptBad_not_falsy _ hg1),
   anaRoute_success jsonParse anaBody st data ha0 ha1 ha2,
   anaHandler_success jsonParse key anaBody st data hk ha0 ha1 ha2⟩

/-- C5 witness: an upstream 503 yields proxy status 503. -/
theorem claim5_witness :
    (ServerIndex.generateRoute (fun _ => none) (Json.obj [("prompt", Json.str "hi")])
      (FetchOutcome.success 503 (Json.obj [("error", Json.str "overloaded")]))).status = 503 := by
  have h := claim5_status_mirror (fun _ => none) (Json.obj [("prompt", Json.str "hi")])
    (Json.obj [("fileBase64", Json.str "QQ=="), ("mimeType", Json.str "application/pdf")])
    503 (Json.obj [("error", Json.str "overloaded")]) (some "k")
    rfl rfl rfl rfl rfl rfl
  rw [h.1]

/-- C10: in every success-path response of the four proxy surfaces, the
upstream body appears twice and identically — the top-level `raw` field
and the nested `extracted.raw` field are both the upstream body. -/
theorem claim10_raw_twice (jsonParse : String → Option Json) (genBody anaBody : Json)
    (st : Nat) (data : Json) (key : Option String)
    (hg0 : jIsNull genBody = false)
    (hg1 : promptBad (getField genBody "prompt") = false)
    (ha0 : jIsNull anaBody = false)
    (ha1 : truthyO (getField anaBody "fileBase64") = true)
    (ha2 : truthyO (getField anaBody "mimeType") = true)
    (hk : envFalsy key = false) :
    (respField (ServerIndex.generateRoute jsonParse genBody (FetchOutcome.success st data)) "raw"
        = some data
      ∧ (respField (ServerIndex.generateRoute jsonParse genBody (FetchOutcome.success st data))
          "extracted").bind (fun e => getField e "raw") = some data)
    ∧ (respField (ApiGenerate.handler jsonParse key "POST" genBody (FetchOutcome.success st data))
        "raw" = some data
      ∧ (respField (ApiGenerate.handler jsonParse key "POST" genBody (FetchOutcome.success st data))
          "extracted").bind (fun e => getField e "raw") = some data)
    ∧ (respField (ServerIndex.analyzeRoute jsonParse anaBody (FetchOutcome.success st data)) "raw"
        = some data
      ∧ (respField (ServerIndex.analyzeRoute jsonParse anaBody (FetchOutcome.success st data))
          "extracted").bind (fun e => getField e "raw") = some data)
    ∧ (respField (ApiAnalyzeDocument.handler jsonParse key "POST" anaBody
        (FetchOutcome.success st data)) "raw" = some data
      ∧ (respField (ApiAnalyzeDocument.handler jsonParse key "POST" anaBody
          (FetchOutcome.success st data))
          "extracted").bind (fun e => getField e "raw") = some data) := by
  rw [genRoute_success jsonParse genBody st data hg0 hg1,
    genHandler_success jsonParse key genBody st data hk hg0 (promptBad_not_falsy _ hg1),
    anaRoute_success jsonParse anaBody st data ha0 ha1 ha2,
    anaHandler_success jsonParse key anaBody st data hk ha0 ha1 ha2]
  refine ⟨⟨?_, ?_⟩, ⟨?_, ?_⟩, ⟨?_, ?_⟩, ⟨?_, ?_⟩⟩ <;>
    simp [respField, getField, lookupField, Extracted.toJson, Option.bind,
      server_raw, gen_raw, analyze_raw]

/-- C10 witness: the duplication on a concrete generate success. -/
theorem claim10_witness :
    respField (ServerIndex.generateRoute (fun _ => none) (Json.obj [("prompt", Json.str "hi")])
      (FetchOutcome.success 200 (Json.obj [("ok", Json.bool true)]))) "raw"
      = some (Json.obj [("ok", Json.bool true)]) :=
  (claim10_raw_twice (fun _ => none) (Json.obj [("prompt", Json.str "hi")])
    (Json.obj [("fileBase64", Json.str "QQ=="), ("mimeType", Json.str "application/pdf")])
    200 (Json.obj [("ok", Json.bool true)]) (some "k")
    rfl rfl rfl rfl rfl rfl).1.1

/-- C8 (amended): with the credential absent the Process Server's startup
exits fatally before ever listening, and each stateless handler answers
every POST invocation with its 500 error envelope — while an OPTIONS
preflight still gets a bare 200 and any other method a 405, because the
method checks run before the credential check. -/
theorem claim8_missing_credential (jsonParse : String → Option Json) (reqBody : Json)
    (fetch : FetchOutcome) :
    ServerIndex.startup none = ServerIndex.StartupResult.exitFatal
    ∧ ApiGenerate.handler jsonParse none "POST" reqBody fetch
        = ⟨500, some (Json.obj [("error", Json.str "Missing GEMINI_API_KEY")])⟩
    ∧ ApiAnalyzeDocument.handler jsonParse none "POST" reqBody fetch
        = ⟨500, some (Json.obj [("error", Json.str "GEMINI_API_KEY not set")])⟩
    ∧ ApiGenerate.handler jsonParse none "GET" reqBody fetch
        = ⟨405, some (Json.obj [("error", Json.str "Method not allowed")])⟩
    ∧ ApiAnalyzeDocument.handler jsonParse none "GET" reqBody fetch
        = ⟨405, some (Json.obj [("error", Json.str "Method not allowed")])⟩ :=
  ⟨rfl, rfl, rfl, rfl, rfl⟩

/-- C8 counterexample: with the credential absent, an OPTIONS invocation
of either stateless handler is answered 200, not the 500 envelope the
claim requires on every invocation. -/
theorem claim8_options_counterexample :
    (ApiGenerate.handler (fun _ => none) none "OPTIONS" Json.null
      (FetchOutcome.failure "e")).status = 200
    ∧ (ApiGenerate.handler (fun _ => none) none "OPTIONS" Json.null
      (FetchOutcome.failure "e")).status ≠ 500
    ∧ (ApiAnalyzeDocument.handler (fun _ => none) none "OPTIONS" Json.null
      (FetchOutcome.failure "e")).status = 200
    ∧ (ApiAnalyzeDocument.handler (fun _ => none) none "OPTIONS" Json.null
      (FetchOutcome.failure "e")).status ≠ 500 := by
  refine ⟨rfl, ?_, rfl, ?_⟩ <;> decide

/-- C4: for every document-analysis request whose `textParts` is an array
of elements each a plain string or shaped `{text: ...}`, both surfaces
build the upstream `parts` as exactly: the normalized text parts in their
original order (strings wrapped, `{text: ...}` objects unchanged), then
the surface's fixed instructional prompt — which names the five fields
customerInternalId, customerRequestDate, poNumber, shipToSelect and
lineItems — then the inline-data part `{inlineData: {mimeType, data}}`. -/
theorem claim4_parts_order (ps : List Json) (reqBody : Json) (fb mt : Json)
    (hps : getField reqBody "textParts" = some (Json.arr ps))
    (hshape : ∀ p ∈ ps, textPartShaped p = true)
    (hfb : getField reqBody "fileBase64" = some fb)
    (hmt : getField reqBody "mimeType" = some mt) :
    ServerIndex.analyzeParts reqBody
      = ps.map specNormalizePart
        ++ [Json.obj [("text", Json.str ServerIndex.promptText)],
            Json.obj [("inlineData", Json.obj [("mimeType", mt), ("data", fb)])]]
    ∧ ApiAnalyzeDocument.analyzeParts reqBody
      = ps.map specNormalizePart
        ++ [Json.obj [("text", Json.str ApiAnalyzeDocument.promptText)],
            Json.obj [("inlineData", Json.obj [("mimeType", mt), ("data", fb)])]]
    ∧ promptNamesFields ServerIndex.promptText = true
    ∧ promptNamesFields ApiAnalyzeDocument.promptText = true := by
  refine ⟨?_, ?_, by decide, by decide⟩
  · unfold ServerIndex.analyzeParts
    rw [normalize_shaped reqBody ps hps hshape, hfb, hmt]
    rfl
  · unfold ApiAnalyzeDocument.analyzeParts
    rw [normalize_shaped reqBody ps hps hshape, hfb, hmt]
    rfl

/-- C4 witness: `textParts = ["a", {text: "b"}]` produces the parts
`[{text: "a"}, {text: "b"}, prompt, inlineData]` in that order. -/
theorem claim4_witness :
    ServerIndex.analyzeParts (Json.obj [("textParts",
        Json.arr [Json.str "a", Json.obj [("text", Json.str "b")]]),
      ("fileBase64", Json.str "QQ=="), ("mimeType", Json.str "application/pdf")])
      = [Json.obj [("text", Json.str "a")], Json.obj [("text", Json.str "b")],
         Json.obj [("text", Json.str ServerIndex.promptText)],
         Json.obj [("inlineData", Json.obj [("mimeType", Json.str "application/pdf"),
           ("data", Json.str "QQ==")])]] :=
  (claim4_parts_order [Json.str "a", Json.obj [("text", Json.str "b")]]
    (Json.obj [("textParts", Json.arr [Json.str "a", Json.obj [("text", Json.str "b")]]),
      ("fileBase64", Json.str "QQ=="), ("mimeType", Json.str "application/pdf")])
    (Json.str "QQ==") (Json.str "application/pdf")
    rfl (by intro p hp; fin_cases hp <;> rfl) rfl rfl).1

/-- C9: for every document-analysis request with truthy `fileBase64` and
`mimeType` whose `textParts` field is present but not an array, both
surfaces silently treat it as empty — the upstream parts are just the
prompt part followed by the inline-data part — and the response mirrors
the upstream status (no error, no 400). -/
theorem claim9_nonarray_textparts (jsonParse : String → Option Json) (reqBody tp fb mt : Json)
    (st : Nat) (data : Json) (key : Option String)
    (htp : getField reqBody "textParts" = some tp)
    (harr : isArr tp = false)
    (hfb : getField reqBody "fileBase64" = some fb) (hfbt : truthy fb = true)
    (hmt : getField reqBody "mimeType" = some mt) (hmtt : truthy mt = true)
    (h0 : jIsNull reqBody = false)
    (hk : envFalsy key = false) :
    ServerIndex.analyzeParts reqBody
      = [Json.obj [("text", Json.str ServerIndex.promptText)],
         Json.obj [("inlineData", Json.obj [("mimeType", mt), ("data", fb)])]]
    ∧ ApiAnalyzeDocument.analyzeParts reqBody
      = [Json.obj [("text", Json.str ApiAnalyzeDocument.promptText)],
         Json.obj [("inlineData", Json.obj [("mimeType", mt), ("data", fb)])]]
    ∧ (ServerIndex.analyzeRoute jsonParse reqBody (FetchOutcome.success st data)).status = st
    ∧ (ApiAnalyzeDocument.handler jsonParse key "POST" reqBody
        (FetchOutcome.success st data)).status = st := by
  have ht1 : truthyO (getField reqBody "fileBase64") = true := by
    rw [hfb]; exact hfbt
  have ht2 : truthyO (getField reqBody "mimeType") = true := by
    rw [hmt]; exact hmtt
  refine ⟨?_, ?_, ?_, ?_⟩
  · unfold ServerIndex.analyzeParts
    rw [normalize_nonarray reqBody tp htp harr, hfb, hmt]
    rfl
  · unfold ApiAnalyzeDocument.analyzeParts
    rw [normalize_nonarray reqBody tp htp harr, hfb, hmt]
    rfl
  · rw [anaRoute_success jsonParse reqBody st data h0 ht1 ht2]
  · rw [anaHandler_success jsonParse key reqBody st data hk h0 ht1 ht2]

/-- C9 witness: a string-valued `textParts` is treated as empty. -/
theorem claim9_witness :
    ServerIndex.analyzeParts (Json.obj [("textParts", Json.str "oops"),
      ("fileBase64", Json.str "QQ=="), ("mimeType", Json.str "application/pdf")])
      = [Json.obj [("text", Json.str ServerIndex.promptText)],
         Json.obj [("inlineData", Json.obj [("mimeType", Json.str "application/pdf"),
           ("data", Json.str "QQ==")])]] :=
  (claim9_nonarray_textparts (fun _ => none)
    (Json.obj [("textParts", Json.str "oops"), ("fileBase64", Json.str "QQ=="),
      ("mimeType", Json.str "application/pdf")])
    (Json.str "oops") (Json.str "QQ==") (Json.str "application/pdf")
    200 Json.null (some "k") rfl rfl rfl rfl rfl rfl rfl rfl).1

/-- C7: on both document-analysis surfaces the upstream
`generationConfig` always contains `responseMimeType: "application/json"`
and `temperature: 0.05`, and it contains a `responseSchema` field copied
verbatim exactly when the caller supplied one — absent (or null, the
destructuring default) means no `responseSchema` key, and a supplied
schema object is passed through unchanged. -/
theorem claim7_generation_config (reqBody : Json) :
    (getField (analyzeGenerationConfig reqBody) "responseMimeType"
        = some (Json.str "application/json")
      ∧ getField (analyzeGenerationConfig reqBody) "temperature" = some (Json.num 0.05)
      ∧ getField (ServerIndex.analyzeUpstreamBody reqBody) "generationConfig"
          = some (analyzeGenerationConfig reqBody)
      ∧ getField (ApiAnalyzeDocument.analyzeUpstreamBody reqBody) "generationConfig"
          = some (analyzeGenerationConfig reqBody))
    ∧ (getField reqBody "responseSchema" = none →
        getField (analyzeGenerationConfig reqBody) "responseSchema" = none)
    ∧ (getField reqBody "responseSchema" = some Json.null →
        getField (analyzeGenerationConfig reqBody) "responseSchema" = none)
    ∧ (∀ fl, getField reqBody "responseSchema" = some (Json.obj fl) →
        getField (analyzeGenerationConfig reqBody) "responseSchema"
          = some (Json.obj fl)) := by
  refine ⟨⟨?_, ?_, rfl, rfl⟩, fun h => ?_, fun h => ?_, fun fl h => ?_⟩
  · unfold analyzeGenerationConfig
    rcases hs : getField reqBody "responseSchema" with _ | v
    · rfl
    · by_cases hv : truthy v = true <;> simp [hv, getField, lookupField]
  · unfold analyzeGenerationConfig
    rcases hs : getField reqBody "responseSchema" with _ | v
    · rfl
    · by_cases hv : truthy v = true <;> simp [hv, getField, lookupField]
  · unfold analyzeGenerationConfig
    rw [h]
    rfl
  · unfold analyzeGenerationConfig
    rw [h]
    rfl
  · unfold analyzeGenerationConfig
    rw [h]
    simp [truthy, getField, lookupField]

/-- C7 witness: a supplied schema object appears verbatim in the config. -/
theorem claim7_witness :
    getField (analyzeGenerationConfig (Json.obj [("responseSchema",
        Json.obj [("type", Json.str "object")])])) "responseSchema"
      = some (Json.obj [("type", Json.str "object")]) :=
  (claim7_generation_config (Json.obj [("responseSchema",
    Json.obj [("type", Json.str "object")])])).2.2.2
    [("type", Json.str "object")] rfl
